import Mathlib

/-!
# Shallow embedding of the job-application tracker backend

This file embeds the Express/PostgreSQL backend (`src/backend/server.js`)
of the job-application tracker and proves properties of its handlers.

Modelling conventions:
* Request body / query-string fields are `Option String`; `none` stands for
  an absent (JavaScript `undefined`) field.  JavaScript string truthiness
  (`undefined`, `null` and `""` are falsy) is `truthy`.
* SQL `NULL`able columns are `Option String` in a stored row.
* Timestamps (`CURRENT_TIMESTAMP`) are a `Nat` parameter `now` passed to each
  mutating handler; `SERIAL` ids come from a `nextId` counter in the store.
* A handler's HTTP outcome is `Except SrvErr α`: `SrvErr` carries the status
  code and the JSON `error` message exactly as the handler writes them.
* Query-string numerics follow JavaScript coercion on canonical decimal
  integer strings; every other string is treated as non-numeric (`JNum.nan`).
  PostgreSQL rejects a negative or non-numeric `LIMIT`/`OFFSET`, which the
  route's `catch` turns into a 500 response; the model returns that 500
  directly.
-/

/-- JavaScript truthiness of an optional string field:
`undefined`/`null`/`""` are falsy, every other string is truthy. -/
def truthy : Option String → Bool
  | none => false
  | some s => !(s == "")

/-- The `application_date || null` / `follow_up_date || null` conversion in
the create and update handlers: an empty date string becomes SQL `NULL`. -/
def dateOrNull : Option String → Option String
  | none => none
  | some s => if s == "" then none else some s

/-- Status code plus JSON `error` message of a failed request. -/
structure SrvErr where
  status : Nat
  error : String
deriving DecidableEq, Repr

/-- A row of the `job_applications` table.  `status` is nullable in the
schema (`VARCHAR(50) DEFAULT 'applied'`) and the update handler can store
`NULL` there, hence `Option String`. -/
structure JobRecord where
  id : Nat
  user_id : Nat
  company_name : String
  job_title : String
  job_url : Option String
  location : Option String
  salary_range : Option String
  application_date : Option String
  status : Option String
  description : Option String
  requirements : Option String
  notes : Option String
  contact_person : Option String
  contact_email : Option String
  follow_up_date : Option String
  created_at : Nat
  updated_at : Nat
deriving DecidableEq, Repr

/-- The `job_applications` table plus its `SERIAL` id sequence. -/
structure JobStore where
  rows : List JobRecord
  nextId : Nat
deriving DecidableEq, Repr

/-- The JSON body of a create/update request for a job record. -/
structure JobFields where
  company_name : Option String := none
  job_title : Option String := none
  job_url : Option String := none
  location : Option String := none
  salary_range : Option String := none
  application_date : Option String := none
  status : Option String := none
  description : Option String := none
  requirements : Option String := none
  notes : Option String := none
  contact_person : Option String := none
  contact_email : Option String := none
  follow_up_date : Option String := none
deriving DecidableEq, Repr

/-- `GET /api/jobs/:id`: numeric-id check, then
`SELECT * FROM job_applications WHERE id = $1 AND user_id = $2`.
`idParam = none` models a route parameter failing the `!id || isNaN(id)`
check. -/
def getJob (st : JobStore) (userId : Nat) (idParam : Option Nat) :
    Except SrvErr JobRecord :=
  match idParam with
  | none => .error ⟨400, "Invalid job ID"⟩
  | some id =>
    match st.rows.find? (fun r => r.id == id && r.user_id == userId) with
    | none => .error ⟨404, "Job application not found"⟩
    | some r => .ok r

/-- `POST /api/jobs`: requires truthy `company_name` and `job_title`, blanks
the date fields to `NULL`, defaults `status` to `"applied"` only when the
field is absent (JavaScript destructuring default), and inserts the row. -/
def createJob (st : JobStore) (now : Nat) (userId : Nat) (b : JobFields) :
    Except SrvErr JobRecord × JobStore :=
  if !(truthy b.company_name && truthy b.job_title) then
    (.error ⟨400, "Company name and job title are required"⟩, st)
  else
    let r : JobRecord :=
      { id := st.nextId
        user_id := userId
        company_name := b.company_name.getD ""
        job_title := b.job_title.getD ""
        job_url := b.job_url
        location := b.location
        salary_range := b.salary_range
        application_date := dateOrNull b.application_date
        status := some (b.status.getD "applied")
        description := b.description
        requirements := b.requirements
        notes := b.notes
        contact_person := b.contact_person
        contact_email := b.contact_email
        follow_up_date := dateOrNull b.follow_up_date
        created_at := now
        updated_at := now }
    (.ok r, ⟨st.rows ++ [r], st.nextId + 1⟩)

/-- The row produced by the `UPDATE ... SET` list of `PUT /api/jobs/:id`:
every column is overwritten from the request body (absent optional fields
become `NULL`), `updated_at` is set to the current timestamp, and `id`,
`user_id`, `created_at` are untouched. -/
def replaceRow (r : JobRecord) (b : JobFields) (now : Nat) : JobRecord :=
  { r with
    company_name := b.company_name.getD ""
    job_title := b.job_title.getD ""
    job_url := b.job_url
    location := b.location
    salary_range := b.salary_range
    application_date := dateOrNull b.application_date
    status := b.status
    description := b.description
    requirements := b.requirements
    notes := b.notes
    contact_person := b.contact_person
    contact_email := b.contact_email
    follow_up_date := dateOrNull b.follow_up_date
    updated_at := now }

/-- `PUT /api/jobs/:id`: numeric-id check, then the same required-field
validation as create, then
`UPDATE ... WHERE id = $14 AND user_id = $15 RETURNING *`;
zero updated rows yield a 404 and an unchanged store. -/
def updateJob (st : JobStore) (now : Nat) (userId : Nat) (idParam : Option Nat)
    (b : JobFields) : Except SrvErr JobRecord × JobStore :=
  match idParam with
  | none => (.error ⟨400, "Invalid job ID"⟩, st)
  | some id =>
    if !(truthy b.company_name && truthy b.job_title) then
      (.error ⟨400, "Company name and job title are required"⟩, st)
    else
      match st.rows.find? (fun r => r.id == id && r.user_id == userId) with
      | none => (.error ⟨404, "Job application not found"⟩, st)
      | some r =>
        (.ok (replaceRow r b now),
         ⟨st.rows.map fun q =>
            if q.id == id && q.user_id == userId then replaceRow q b now else q,
          st.nextId⟩)

/-- SQL `LIKE`/`ILIKE` pattern matching on character lists, fuel-indexed so
that the definition is structurally recursive: `%` matches any sequence,
`_` matches any single character, other characters match case-insensitively
(the `ILIKE` variant).  The fuel only needs to exceed
`pattern.length + s.length`. -/
def ilikeF : Nat → List Char → List Char → Bool
  | 0, _, _ => false
  | _ + 1, [], [] => true
  | _ + 1, [], _ :: _ => false
  | f + 1, p :: ps, [] => p == '%' && ilikeF f ps []
  | f + 1, p :: ps, c :: cs =>
    if p == '%' then ilikeF f ps (c :: cs) || ilikeF f (p :: ps) cs
    else if p == '_' then ilikeF f ps cs
    else p.toLower == c.toLower && ilikeF f ps cs

/-- `s ILIKE pattern` with sufficient fuel. -/
def ilike (pattern : List Char) (s : List Char) : Bool :=
  ilikeF (pattern.length + s.length + 1) pattern s

/-- The pattern the list handler builds for the company filter:
`` `%${company}%` `` — the caller's input is embedded unescaped between two
`%` wildcards (server.js line 289). -/
def companyPattern (company : String) : List Char :=
  ("%" ++ company ++ "%").data

/-- A JavaScript number restricted to the values the handlers can produce
from canonical decimal-integer query strings: an integer or `NaN`.
(Non-finite results, reachable only via `limit = 0`, are collapsed to
`nan`; no claim exercises them.) -/
inductive JNum where
  | nan
  | int (n : Int)
deriving DecidableEq, Repr

/-- Decimal digit-string value accumulator. -/
def decValue : List Char → Nat → Option Nat
  | [], acc => some acc
  | c :: cs, acc =>
    if c.isDigit then decValue cs (acc * 10 + (c.toNat - 48)) else none

/-- JavaScript numeric coercion (`Number(s)`, also `parseInt(s)` — the two
agree here) modelled on canonical decimal integer strings; any other string
is treated as non-numeric and maps to `NaN`. -/
def jsNumber (s : String) : JNum :=
  match s.data with
  | [] => .nan
  | '-' :: [] => .nan
  | '-' :: cs =>
    match decValue cs 0 with
    | some n => .int (-(n : Int))
    | none => .nan
  | cs =>
    match decValue cs 0 with
    | some n => .int (n : Int)
    | none => .nan

/-- JavaScript subtraction after numeric coercion. -/
def JNum.sub : JNum → JNum → JNum
  | .int a, .int b => .int (a - b)
  | _, _ => .nan

/-- JavaScript multiplication after numeric coercion. -/
def JNum.mul : JNum → JNum → JNum
  | .int a, .int b => .int (a * b)
  | _, _ => .nan

/-- `⌈a / b⌉` on integers (for `b ≠ 0`), via `ceil x = -floor (-x)`. -/
def ceilDivInt (a b : Int) : Int := -((-a).fdiv b)

/-- `Math.ceil(total / limit)` as the list handler computes `totalPages`. -/
def jsCeilDiv (total : Nat) : JNum → JNum
  | .nan => .nan
  | .int l => if l == 0 then .nan else .int (ceilDivInt (total : Int) l)

/-- The `WHERE` clause of `GET /api/jobs`: rows of the authenticated user,
optionally AND-ed with an exact status match and an `ILIKE` company match
(each filter applies only when the query parameter is truthy).  The status
comparison is SQL equality, so a `NULL` status never matches. -/
def rowMatches (userId : Nat) (statusF companyF : Option String)
    (r : JobRecord) : Bool :=
  r.user_id == userId
  && (if truthy statusF then r.status == some (statusF.getD "") else true)
  && (if truthy companyF then ilike (companyPattern (companyF.getD "")) r.company_name.data
      else true)

/-- Insert a row into a list kept in descending `created_at` order. -/
def insertDesc (r : JobRecord) : List JobRecord → List JobRecord
  | [] => [r]
  | q :: qs => if q.created_at ≤ r.created_at then r :: q :: qs else q :: insertDesc r qs

/-- `ORDER BY created_at DESC` (ties in an implementation-chosen order, as
in SQL). -/
def sortByCreatedDesc : List JobRecord → List JobRecord
  | [] => []
  | r :: rs => insertDesc r (sortByCreatedDesc rs)

/-- The `pagination` object of a list response.  `page`, `limit` and
`totalPages` are JavaScript numbers (`parseInt` of the raw parameters and
`Math.ceil(total / limit)`), so they can be `NaN` for garbage input. -/
structure Pagination where
  page : JNum
  limit : JNum
  total : Nat
  totalPages : JNum
deriving DecidableEq, Repr

/-- Body of a successful `GET /api/jobs` response. -/
structure ListResponse where
  jobs : List JobRecord
  pagination : Pagination
deriving DecidableEq, Repr

/-- `GET /api/jobs` (server.js lines 275–328).  `pageP`/`limitP` are the raw
query-string parameters (`none` = absent, defaulting to `1` and `20`);
they are used unsanitized: the SQL `OFFSET` is `(page - 1) * limit` and the
SQL `LIMIT` is the raw limit value.  PostgreSQL rejects a negative or
non-numeric `LIMIT`/`OFFSET` and the route's `catch` then answers 500.
`total` comes from the count query, which reuses the filter conditions but
ignores pagination. -/
def listJobs (st : JobStore) (userId : Nat) (statusF companyF : Option String)
    (pageP limitP : Option String) : Except SrvErr ListResponse :=
  let pageN : JNum := match pageP with | none => .int 1 | some s => jsNumber s
  let limitN : JNum := match limitP with | none => .int 20 | some s => jsNumber s
  let matched := st.rows.filter (rowMatches userId statusF companyF)
  let offset := (pageN.sub (.int 1)).mul limitN
  match limitN, offset with
  | .int l, .int o =>
    if l < 0 ∨ o < 0 then .error ⟨500, "Internal server error"⟩
    else
      .ok { jobs := ((sortByCreatedDesc matched).drop o.toNat).take l.toNat
            pagination :=
              { page := match pageP with | none => .int 1 | some s => jsNumber s
                limit := match limitP with | none => .int 20 | some s => jsNumber s
                total := matched.length
                totalPages := jsCeilDiv matched.length limitN } }
  | _, _ => .error ⟨500, "Internal server error"⟩

/-- Body of a `GET /api/stats` response: the fixed-shape tally of the
authenticated user's rows. -/
structure StatsResponse where
  total : Nat
  applied : Nat
  interview : Nat
  offer : Nat
  rejected : Nat
  withdrawn : Nat
deriving DecidableEq, Repr

/-- `GET /api/stats` (server.js lines 479–499): `COUNT(*)` plus one
`COUNT(CASE WHEN status = '<s>' THEN 1 END)` per enumerated status, all
restricted to `user_id = $1`. -/
def getStats (st : JobStore) (userId : Nat) : StatsResponse :=
  let mine := st.rows.filter (fun r => r.user_id == userId)
  { total := mine.length
    applied := (mine.filter (fun r => r.status == some "applied")).length
    interview := (mine.filter (fun r => r.status == some "interview")).length
    offer := (mine.filter (fun r => r.status == some "offer")).length
    rejected := (mine.filter (fun r => r.status == some "rejected")).length
    withdrawn := (mine.filter (fun r => r.status == some "withdrawn")).length }

/-- `DELETE /api/jobs/:id`: numeric-id check, then
`DELETE FROM job_applications WHERE id = $1 AND user_id = $2 RETURNING *`;
zero deleted rows yield a 404 and an unchanged store.  On success the
handler returns the deleted row. -/
def deleteJob (st : JobStore) (userId : Nat) (idParam : Option Nat) :
    Except SrvErr JobRecord × JobStore :=
  match idParam with
  | none => (.error ⟨400, "Invalid job ID"⟩, st)
  | some id =>
    match st.rows.find? (fun r => r.id == id && r.user_id == userId) with
    | none => (.error ⟨404, "Job application not found"⟩, st)
    | some r =>
      (.ok r,
       ⟨st.rows.filter fun q => !(q.id == id && q.user_id == userId),
        st.nextId⟩)

/-- A row of the `users` table. -/
structure UserRec where
  id : Nat
  username : String
  email : String
  password_hash : String
  created_at : Nat
deriving DecidableEq, Repr

/-- The `users` table plus its `SERIAL` id sequence. -/
structure UserStore where
  users : List UserRec
  nextId : Nat
deriving DecidableEq, Repr

/-- The claims a session token asserts (`jwt.sign({userId, username}, ...)`);
signing itself is cryptographic and outside the model. -/
structure SessionToken where
  userId : Nat
  username : String
deriving DecidableEq, Repr

/-- Body of a successful register/login response: token plus public user
fields (the password hash is never included). -/
structure AuthOk where
  token : SessionToken
  id : Nat
  username : String
  email : String
deriving DecidableEq, Repr

/-- `POST /api/auth/register` (server.js lines 146–202).  `hash` abstracts
`bcrypt.hash` with its salt.  Field presence uses JavaScript truthiness;
the length check is on the submitted password; the duplicate check is
`SELECT id FROM users WHERE email = $1 OR username = $2`. -/
def register (st : UserStore) (hash : String → String) (now : Nat)
    (username email password : Option String) :
    Except SrvErr AuthOk × UserStore :=
  if !(truthy username && truthy email && truthy password) then
    (.error ⟨400, "Username, email, and password are required"⟩, st)
  else
    let u := username.getD ""
    let e := email.getD ""
    let p := password.getD ""
    if p.length < 6 then
      (.error ⟨400, "Password must be at least 6 characters long"⟩, st)
    else if (st.users.filter fun q => q.email == e || q.username == u) ≠ [] then
      (.error ⟨409, "User with this email or username already exists"⟩, st)
    else
      let newUser : UserRec :=
        { id := st.nextId, username := u, email := e
          password_hash := hash p, created_at := now }
      (.ok { token := ⟨newUser.id, newUser.username⟩
             id := newUser.id, username := newUser.username, email := newUser.email },
       ⟨st.users ++ [newUser], st.nextId + 1⟩)

/-- `POST /api/auth/login` (server.js lines 205–251).  `verify` abstracts
`bcrypt.compare`.  A missing user and a hash mismatch produce the identical
401 response. -/
def login (st : UserStore) (verify : String → String → Bool)
    (email password : Option String) : Except SrvErr AuthOk :=
  if !(truthy email && truthy password) then
    .error ⟨400, "Email and password are required"⟩
  else
    let e := email.getD ""
    let p := password.getD ""
    match st.users.find? (fun u => u.email == e) with
    | none => .error ⟨401, "Invalid email or password"⟩
    | some u =>
      if verify p u.password_hash then
        .ok { token := ⟨u.id, u.username⟩
              id := u.id, username := u.username, email := u.email }
      else .error ⟨401, "Invalid email or password"⟩

/-! ## Helper lemmas -/

theorem length_insertDesc (r : JobRecord) (l : List JobRecord) :
    (insertDesc r l).length = l.length + 1 := by
  induction l with
  | nil => rfl
  | cons q qs ih =>
    unfold insertDesc
    split
    · simp
    · simp [ih]

theorem length_sortByCreatedDesc (l : List JobRecord) :
    (sortByCreatedDesc l).length = l.length := by
  induction l with
  | nil => rfl
  | cons r rs ih => simp [sortByCreatedDesc, length_insertDesc, ih]

/-- With both filters absent, the list handler WHERE clause degenerates to
the ownership check. -/
theorem rowMatches_no_filters (userId : Nat) (r : JobRecord) :
    rowMatches userId none none r = (r.user_id == userId) := by
  simp [rowMatches, truthy]

/-- For `1 ≤ l`, the integer ceiling division used for `totalPages` agrees
with the natural-number formula `(N + l - 1) / l`. -/
theorem ceilDivInt_natCast (N l : Nat) (hl : 1 ≤ l) :
    ceilDivInt (N : Int) (l : Int) = (((N + l - 1) / l : Nat) : Int) := by
  have hl0 : (0 : Int) < l := by exact_mod_cast hl
  set q : Nat := (N + l - 1) / l with hq
  set r : Nat := (N + l - 1) % l with hr
  set M : Nat := N + l - 1 with hM
  have hdm : l * q + r = M := Nat.div_add_mod _ _
  have hml : r < l := Nat.mod_lt _ (by omega)
  have hM1 : M + 1 = N + l := by omega
  have hdmZ : (l : Int) * (q : Int) + (r : Int) = (M : Int) := by exact_mod_cast hdm
  have hmlZ : (r : Int) < (l : Int) := by exact_mod_cast hml
  have hM1Z : (M : Int) + 1 = (N : Int) + (l : Int) := by exact_mod_cast hM1
  have hrnn : (0 : Int) ≤ (r : Int) := Int.natCast_nonneg r
  have hkey : (-(N : Int)) / (l : Int) = -(q : Int) ∧
      (-(N : Int)) % (l : Int) = (l : Int) * q - N := by
    rw [Int.ediv_emod_unique hl0]
    refine ⟨by ring, by linarith, by linarith⟩
  have hfd : (-(N : Int)).fdiv (l : Int) = -(q : Int) := by
    rw [Int.fdiv_eq_ediv _ (le_of_lt hl0)]
    exact hkey.1
  unfold ceilDivInt
  rw [hfd, neg_neg]

/-- `Math.ceil(total / limit)` for a positive integer limit. -/
theorem jsCeilDiv_pos (N l : Nat) (hl : 1 ≤ l) :
    jsCeilDiv N (.int (l : Int)) = .int (((N + l - 1) / l : Nat) : Int) := by
  have hne : ¬ ((l : Int) = 0) := by omega
  simp [jsCeilDiv, beq_iff_eq, hne, ceilDivInt_natCast N l hl]

/-- Evaluation of the list handler when the caller supplies canonical
positive decimal integer `page` and `limit` parameters. -/
theorem listJobs_pos (st : JobStore) (userId : Nat) (sf cf : Option String)
    (ps ls : String) (p l : Nat)
    (hp : jsNumber ps = .int (p : Int)) (hl : jsNumber ls = .int (l : Int))
    (hp1 : 1 ≤ p) (hl1 : 1 ≤ l) :
    listJobs st userId sf cf (some ps) (some ls) =
      .ok { jobs := ((sortByCreatedDesc (st.rows.filter (rowMatches userId sf cf))).drop
              ((p - 1) * l)).take l
            pagination :=
              { page := .int (p : Int), limit := .int (l : Int)
                total := (st.rows.filter (rowMatches userId sf cf)).length
                totalPages := .int ((((st.rows.filter (rowMatches userId sf cf)).length
                  + l - 1) / l : Nat) : Int) } } := by
  have ho : ((p : Int) - 1) * (l : Int) = (((p - 1) * l : Nat) : Int) := by
    have h1 : ((p : Int) - 1) = ((p - 1 : Nat) : Int) := by omega
    rw [h1, ← Nat.cast_mul]
  have hcond : ¬ ((l : Int) < 0 ∨ (((p - 1) * l : Nat) : Int) < 0) := by
    rw [not_or]
    constructor <;> · rw [not_lt]; exact Int.natCast_nonneg _
  unfold listJobs
  simp only [hp, hl, JNum.sub, JNum.mul, ho, if_neg hcond,
    jsCeilDiv_pos _ _ hl1, Int.toNat_natCast]

/-- Evaluation of the list handler with absent `page` and `limit`
parameters (defaults `1` and `20`). -/
theorem listJobs_default (st : JobStore) (userId : Nat)
    (sf cf : Option String) :
    listJobs st userId sf cf none none =
      .ok { jobs := (sortByCreatedDesc (st.rows.filter (rowMatches userId sf cf))).take 20
            pagination :=
              { page := .int 1, limit := .int 20
                total := (st.rows.filter (rowMatches userId sf cf)).length
                totalPages := jsCeilDiv (st.rows.filter (rowMatches userId sf cf)).length
                  (.int 20) } } := by
  unfold listJobs
  have h20 : Int.toNat 20 = 20 := rfl
  norm_num [JNum.sub, JNum.mul, h20]

/-- If every status in `l` is one of the five enumerated values, the five
per-status counts partition the list. -/
theorem sum_status_counts (l : List JobRecord)
    (h : ∀ r ∈ l, r.status = some "applied" ∨ r.status = some "interview" ∨
      r.status = some "offer" ∨ r.status = some "rejected" ∨
      r.status = some "withdrawn") :
    ((l.filter fun r => r.status == some "applied").length
      + (l.filter fun r => r.status == some "interview").length
      + (l.filter fun r => r.status == some "offer").length
      + (l.filter fun r => r.status == some "rejected").length
      + (l.filter fun r => r.status == some "withdrawn").length) = l.length := by
  induction l with
  | nil => simp
  | cons r rs ih =>
    have hr := h r (by simp)
    have hrs := fun q hq => h q (List.mem_cons_of_mem _ hq)
    have hsum := ih hrs
    rcases hr with h1 | h1 | h1 | h1 | h1 <;>
      simp [List.filter_cons, h1] <;> omega

/-- `n` is a prefix of the second list. -/
def prefixOf : List Char → List Char → Bool
  | [], _ => true
  | _ :: _, [] => false
  | a :: as, b :: bs => a == b && prefixOf as bs

/-- `n` occurs as a contiguous sublist of the second list. -/
def infixOf (n : List Char) : List Char → Bool
  | [] => n.isEmpty
  | c :: cs => prefixOf n (c :: cs) || infixOf n cs

/-- Case-insensitive literal substring containment: what a literal
(non-wildcard) company filter would mean. -/
def containsLiteral (needle hay : String) : Bool :=
  infixOf (needle.data.map Char.toLower) (hay.data.map Char.toLower)

/-- The store with every record of identifier `i` removed: the
"nonexistent record" side of the indistinguishability property. -/
def eraseId (st : JobStore) (i : Nat) : JobStore :=
  ⟨st.rows.filter fun r => !(r.id == i), st.nextId⟩

/-! ## Concrete fixtures for witnesses and counterexamples -/

/-- A stored record with identifier 1 owned by user 1. -/
def rowA : JobRecord :=
  { id := 1, user_id := 1, company_name := "Acme", job_title := "Engineer"
    job_url := some "https://acme.example", location := none
    salary_range := none, application_date := none, status := some "applied"
    description := none, requirements := none, notes := none
    contact_person := none, contact_email := none, follow_up_date := none
    created_at := 0, updated_at := 0 }

/-- A one-record job store: `rowA` only. -/
def storeA : JobStore := ⟨[rowA], 2⟩

/-- A registered user for the auth fixtures. -/
def userAlice : UserRec :=
  { id := 1, username := "alice", email := "alice@example.com"
    password_hash := "HASH", created_at := 0 }

/-- A one-user credential store. -/
def userStoreA : UserStore := ⟨[userAlice], 2⟩

/-! ## Claim theorems -/

/-- C9: `POST /api/jobs` fails with status 400 ("Company name and job title
are required") whenever the company name or the job title is missing or
empty — in particular an empty company name always fails, whatever the
other fields hold — and the store is unchanged, so no record is
persisted. -/
theorem C9_create_requires_company_and_title
    (st : JobStore) (now userId : Nat) (b : JobFields)
    (h : truthy b.company_name = false ∨ truthy b.job_title = false) :
    createJob st now userId b =
      (.error ⟨400, "Company name and job title are required"⟩, st) := by
  unfold createJob
  rcases h with h | h <;> simp [h]

/-- Witness for C9: an empty company name with every other field supplied
still yields the 400 validation error and leaves the store unchanged. -/
theorem C9_create_requires_company_and_title_witness :
    createJob storeA 3 1
      { company_name := some "", job_title := some "Engineer"
        job_url := some "https://x.example", location := some "Remote"
        salary_range := some "100k", application_date := some "2024-01-02"
        status := some "applied", description := some "d"
        requirements := some "r", notes := some "n"
        contact_person := some "c", contact_email := some "c@x.example"
        follow_up_date := some "2024-02-02" } =
      (.error ⟨400, "Company name and job title are required"⟩, storeA) :=
  C9_create_requires_company_and_title storeA 3 1 _ (Or.inl (by decide))

/-- C7: a login whose email matches no user and a login whose email matches
but whose password fails verification produce the same status 401 and the
identical error message, so the two failure causes are observationally
indistinguishable. -/
theorem C7_login_non_enumeration
    (st : UserStore) (verify : String → String → Bool)
    (e₁ p₁ e₂ p₂ : Option String) (u : UserRec)
    (he₁ : truthy e₁ = true) (hp₁ : truthy p₁ = true)
    (he₂ : truthy e₂ = true) (hp₂ : truthy p₂ = true)
    (hnone : st.users.find? (fun q => q.email == e₁.getD "") = none)
    (hfound : st.users.find? (fun q => q.email == e₂.getD "") = some u)
    (hbad : verify (p₂.getD "") u.password_hash = false) :
    login st verify e₁ p₁ = .error ⟨401, "Invalid email or password"⟩ ∧
    login st verify e₂ p₂ = .error ⟨401, "Invalid email or password"⟩ ∧
    login st verify e₁ p₁ = login st verify e₂ p₂ := by
  unfold login
  simp [he₁, hp₁, he₂, hp₂, hnone, hfound, hbad]

/-- Witness for C7: in a store holding only alice, an unknown email and
alice with a wrong password (a verifier that rejects) produce identical
401 responses. -/
theorem C7_login_non_enumeration_witness :
    login userStoreA (fun _ _ => false) (some "bob@example.com") (some "guess1") =
      .error ⟨401, "Invalid email or password"⟩ ∧
    login userStoreA (fun _ _ => false) (some "alice@example.com") (some "guess1") =
      .error ⟨401, "Invalid email or password"⟩ ∧
    login userStoreA (fun _ _ => false) (some "bob@example.com") (some "guess1") =
      login userStoreA (fun _ _ => false) (some "alice@example.com") (some "guess1") :=
  C7_login_non_enumeration userStoreA (fun _ _ => false)
    (some "bob@example.com") (some "guess1") (some "alice@example.com") (some "guess1")
    userAlice (by decide) (by decide) (by decide) (by decide)
    (by decide) (by decide) rfl

/-- C8: `POST /api/auth/register` fails with 400 when username, email or
password is missing (or blank) or the password is shorter than 6
characters, fails with 409 when a user with the same email or the same
username already exists, and in every failure case the user store is
unchanged, so no user is persisted. -/
theorem C8_register_validation_and_conflict
    (st : UserStore) (hash : String → String) (now : Nat)
    (username email password : Option String) :
    ((truthy username && truthy email && truthy password) = false →
      register st hash now username email password =
        (.error ⟨400, "Username, email, and password are required"⟩, st)) ∧
    ((truthy username && truthy email && truthy password) = true →
      (password.getD "").length < 6 →
      register st hash now username email password =
        (.error ⟨400, "Password must be at least 6 characters long"⟩, st)) ∧
    ((truthy username && truthy email && truthy password) = true →
      ¬ (password.getD "").length < 6 →
      (st.users.filter fun q =>
        q.email == email.getD "" || q.username == username.getD "") ≠ [] →
      register st hash now username email password =
        (.error ⟨409, "User with this email or username already exists"⟩, st)) := by
  refine ⟨?_, ?_, ?_⟩
  · intro h
    unfold register
    simp [h]
  · intro h hlen
    unfold register
    simp [h, hlen]
  · intro h hlen hdup
    unfold register
    simp [h, hlen, hdup]

/-- Witness for C8: a short password is rejected with 400, and registering
with the email of the already-present alice (but a fresh username) is
rejected with 409; both leave the store unchanged. -/
theorem C8_register_validation_and_conflict_witness :
    register userStoreA (fun p => p) 9 (some "bob") (some "bob@example.com") (some "abc") =
      (.error ⟨400, "Password must be at least 6 characters long"⟩, userStoreA) ∧
    register userStoreA (fun p => p) 9 (some "bob") (some "alice@example.com") (some "abcdef") =
      (.error ⟨409, "User with this email or username already exists"⟩, userStoreA) :=
  ⟨(C8_register_validation_and_conflict userStoreA (fun p => p) 9
      (some "bob") (some "bob@example.com") (some "abc")).2.1 (by decide) (by decide),
   (C8_register_validation_and_conflict userStoreA (fun p => p) 9
      (some "bob") (some "alice@example.com") (some "abcdef")).2.2 (by decide) (by decide)
      (by decide)⟩

/-- C10: the company filter builds the unescaped ILIKE pattern
`%<input>%`, so the wildcard input `"%"` matches the stored company name
"Acme" even though "Acme" does not contain the string `"%"` literally, and
the list endpoint returns that record. -/
theorem C10_company_filter_unescaped :
    ilike (companyPattern "%") "Acme".data = true ∧
    containsLiteral "%" "Acme" = false ∧
    listJobs storeA 1 none (some "%") none none =
      .ok { jobs := [rowA]
            pagination :=
              { page := .int 1, limit := .int 20, total := 1, totalPages := .int 1 } } :=
  ⟨rfl, rfl, rfl⟩

/-- C5 counterexample: a create request with status `"banana"` passes
validation and persists a record whose status is none of the five
enumerated values. -/
theorem C5_counterexample :
    ((createJob ⟨[], 1⟩ 0 1
        { company_name := some "Acme", job_title := some "Engineer"
          status := some "banana" }).2.rows.map fun r => r.status) =
      [some "banana"] ∧
    "banana" ∉ ["applied", "interview", "offer", "rejected", "withdrawn"] :=
  ⟨rfl, by decide⟩

/-- C5 (amended): create stores the caller-supplied status unvalidated —
defaulting to "applied" only when the field is absent — and the update SET
list stores the request status as-is (NULL when absent); no enumeration
constraint is enforced. -/
theorem C5_status_stored_unvalidated (st : JobStore) (now userId : Nat)
    (b : JobFields) (r : JobRecord)
    (hc : truthy b.company_name = true) (ht : truthy b.job_title = true) :
    ((createJob st now userId b).1.map fun q => q.status) =
      .ok (some (b.status.getD "applied")) ∧
    (b.status = none → ((createJob st now userId b).1.map fun q => q.status) =
      .ok (some "applied")) ∧
    (replaceRow r b now).status = b.status := by
  refine ⟨?_, ?_, rfl⟩
  · unfold createJob
    simp [hc, ht, Except.map]
  · intro h0
    unfold createJob
    simp [hc, ht, h0, Except.map]

/-- Witness for C5 (amended): a create with the status field absent stores
status "applied"; the update SET list carries the absent status through as
NULL. -/
theorem C5_status_stored_unvalidated_witness :
    ((createJob storeA 4 1
        { company_name := some "Acme", job_title := some "Engineer" }).1.map
          fun q => q.status) = .ok (some ((none : Option String).getD "applied")) ∧
    ((none : Option String) = none →
      ((createJob storeA 4 1
        { company_name := some "Acme", job_title := some "Engineer" }).1.map
          fun q => q.status) = .ok (some "applied")) ∧
    (replaceRow rowA { company_name := some "Acme", job_title := some "Engineer" } 4).status =
      (none : Option String) :=
  C5_status_stored_unvalidated storeA 4 1
    { company_name := some "Acme", job_title := some "Engineer" } rowA
    (by decide) (by decide)

/-- C4 counterexample: in the reachable store produced by a create with
status "other", the stats endpoint reports total 1 while the five
per-status counts sum to 0. -/
theorem C4_counterexample :
    getStats (createJob ⟨[], 1⟩ 0 7
        { company_name := some "Acme", job_title := some "Engineer"
          status := some "other" }).2 7 =
      { total := 1, applied := 0, interview := 0, offer := 0, rejected := 0
        withdrawn := 0 } ∧
    (1 : Nat) ≠ 0 + 0 + 0 + 0 + 0 :=
  ⟨rfl, by decide⟩

/-- C4 (amended): whenever every stored status lies in the five-value
enumeration, the five per-status counts of the stats endpoint sum to its
total; and unconditionally that total equals the `total` of the pagination
object returned by an unfiltered list request. -/
theorem C4_stats_sum_and_list_total (st : JobStore) (userId : Nat) :
    ((∀ r ∈ st.rows, r.status = some "applied" ∨ r.status = some "interview" ∨
        r.status = some "offer" ∨ r.status = some "rejected" ∨
        r.status = some "withdrawn") →
      (getStats st userId).applied + (getStats st userId).interview
        + (getStats st userId).offer + (getStats st userId).rejected
        + (getStats st userId).withdrawn = (getStats st userId).total) ∧
    (∀ resp, listJobs st userId none none none none = .ok resp →
      resp.pagination.total = (getStats st userId).total) := by
  constructor
  · intro h
    have hmine : ∀ r ∈ st.rows.filter (fun q => q.user_id == userId),
        r.status = some "applied" ∨ r.status = some "interview" ∨
        r.status = some "offer" ∨ r.status = some "rejected" ∨
        r.status = some "withdrawn" :=
      fun r hr => h r (List.mem_of_mem_filter hr)
    simpa [getStats] using sum_status_counts _ hmine
  · intro resp hresp
    rw [listJobs_default] at hresp
    injection hresp with h2
    subst h2
    simp only [getStats]
    exact congrArg List.length
      (List.filter_congr fun x _ => rowMatches_no_filters userId x)

/-- Witness for C4 (amended): in the one-record store of user 1 the counts
sum to the total, and the unfiltered list response carries the same
total. -/
theorem C4_stats_sum_and_list_total_witness :
    (getStats storeA 1).applied + (getStats storeA 1).interview
      + (getStats storeA 1).offer + (getStats storeA 1).rejected
      + (getStats storeA 1).withdrawn = (getStats storeA 1).total ∧
    ({ jobs := [rowA]
       pagination := { page := .int 1, limit := .int 20, total := 1
                       totalPages := .int 1 } } : ListResponse).pagination.total
      = (getStats storeA 1).total :=
  ⟨(C4_stats_sum_and_list_total storeA 1).1 (by decide),
   (C4_stats_sum_and_list_total storeA 1).2 _ rfl⟩

/-- C2 counterexample: the caller-supplied page value "0" is not sanitized
to a positive integer: it flows into a negative SQL OFFSET of -20, the
query fails, and the request answers 500 with no pagination object at
all. -/
theorem C2_counterexample :
    listJobs ⟨[], 1⟩ 1 none none (some "0") none =
      .error ⟨500, "Internal server error"⟩ := rfl

/-- C2 (amended): page and limit are used raw, not sanitized.  When the
caller supplies canonical positive decimal integers the executed query and
the pagination object do use those values (with absent parameters
defaulting to 1 and 20), but a zero or negative page, with a positive
integer limit supplied, flows through unchanged into a negative SQL
OFFSET and makes the request fail with 500. -/
theorem C2_page_limit_unsanitized (st : JobStore) (userId : Nat)
    (sf cf : Option String) (ps ls : String) (p l : Nat)
    (hp : jsNumber ps = .int (p : Int)) (hl : jsNumber ls = .int (l : Int))
    (hp1 : 1 ≤ p) (hl1 : 1 ≤ l) :
    (listJobs st userId sf cf (some ps) (some ls) =
      .ok { jobs := ((sortByCreatedDesc (st.rows.filter (rowMatches userId sf cf))).drop
              ((p - 1) * l)).take l
            pagination :=
              { page := .int (p : Int), limit := .int (l : Int)
                total := (st.rows.filter (rowMatches userId sf cf)).length
                totalPages := .int ((((st.rows.filter (rowMatches userId sf cf)).length
                  + l - 1) / l : Nat) : Int) } }) ∧
    (∀ ps' : String, ∀ p' : Int, jsNumber ps' = .int p' → p' ≤ 0 →
      listJobs st userId sf cf (some ps') (some ls) =
        .error ⟨500, "Internal server error"⟩) := by
  refine ⟨listJobs_pos st userId sf cf ps ls p l hp hl hp1 hl1, ?_⟩
  intro ps' p' hp' hneg
  unfold listJobs
  simp only [hp', hl, JNum.sub, JNum.mul]
  have hlZ : (0 : Int) < (l : Int) := by exact_mod_cast hl1
  rw [if_pos (Or.inr (mul_neg_of_neg_of_pos (by omega) hlZ))]

/-- Witness for C2 (amended): supplied page "1" and limit "2" are echoed
into the query and pagination object; supplied page "0" crashes the query
into a 500. -/
theorem C2_page_limit_unsanitized_witness :
    (listJobs storeA 1 none none (some "1") (some "2") =
      .ok { jobs := [rowA]
            pagination :=
              { page := .int 1, limit := .int 2, total := 1, totalPages := .int 1 } }) ∧
    listJobs storeA 1 none none (some "0") (some "2") =
      .error ⟨500, "Internal server error"⟩ :=
  ⟨(C2_page_limit_unsanitized storeA 1 none none "1" "2" 1 2 rfl rfl
      (by decide) (by decide)).1,
   (C2_page_limit_unsanitized storeA 1 none none "1" "2" 1 2 rfl rfl
      (by decide) (by decide)).2 "0" 0 rfl (by decide)⟩

/-- C3: for caller-supplied positive integer page and limit, the list
response reports total = N (the count of matching rows, ignoring
pagination) and totalPages = ⌈N / limit⌉, and any page beyond totalPages
yields an empty jobs list with the same well-formed pagination object. -/
theorem C3_totalPages_and_beyond_page (st : JobStore) (userId : Nat)
    (sf cf : Option String) (ps ls : String) (p l : Nat)
    (hp : jsNumber ps = .int (p : Int)) (hl : jsNumber ls = .int (l : Int))
    (hp1 : 1 ≤ p) (hl1 : 1 ≤ l) :
    (listJobs st userId sf cf (some ps) (some ls) =
      .ok { jobs := ((sortByCreatedDesc (st.rows.filter (rowMatches userId sf cf))).drop
              ((p - 1) * l)).take l
            pagination :=
              { page := .int (p : Int), limit := .int (l : Int)
                total := (st.rows.filter (rowMatches userId sf cf)).length
                totalPages := .int ((((st.rows.filter (rowMatches userId sf cf)).length
                  + l - 1) / l : Nat) : Int) } }) ∧
    (((st.rows.filter (rowMatches userId sf cf)).length + l - 1) / l < p →
      listJobs st userId sf cf (some ps) (some ls) =
        .ok { jobs := []
              pagination :=
                { page := .int (p : Int), limit := .int (l : Int)
                  total := (st.rows.filter (rowMatches userId sf cf)).length
                  totalPages := .int ((((st.rows.filter (rowMatches userId sf cf)).length
                    + l - 1) / l : Nat) : Int) } }) := by
  have hmain := listJobs_pos st userId sf cf ps ls p l hp hl hp1 hl1
  refine ⟨hmain, fun hbeyond => ?_⟩
  rw [hmain]
  obtain ⟨N, hNdef⟩ :
      ∃ N, (st.rows.filter (rowMatches userId sf cf)).length = N := ⟨_, rfl⟩
  rw [hNdef] at hbeyond
  obtain ⟨q, hqdef⟩ : ∃ q, (N + l - 1) / l = q := ⟨_, rfl⟩
  rw [hqdef] at hbeyond
  have hdm := Nat.div_add_mod (N + l - 1) l
  rw [Nat.mul_comm, hqdef] at hdm
  have hml : (N + l - 1) % l < l := Nat.mod_lt _ (by omega)
  obtain ⟨X, hXdef⟩ : ∃ X, q * l = X := ⟨_, rfl⟩
  obtain ⟨M, hMdef⟩ : ∃ M, (N + l - 1) % l = M := ⟨_, rfl⟩
  rw [hXdef, hMdef] at hdm
  rw [hMdef] at hml
  have h3 : N ≤ X := by omega
  have h4 : X ≤ (p - 1) * l := by
    rw [← hXdef]
    exact Nat.mul_le_mul_right l (by omega)
  have hdrop : (sortByCreatedDesc (st.rows.filter (rowMatches userId sf cf))).drop
      ((p - 1) * l) = [] :=
    List.drop_eq_nil_of_le
      (by rw [length_sortByCreatedDesc, hNdef]; exact le_trans h3 h4)
  rw [hdrop]
  simp [List.take_nil]

/-- Witness for C3: one record, limit 2, page 5 > totalPages 1 gives the
empty page with pagination {page 5, limit 2, total 1, totalPages 1}. -/
theorem C3_totalPages_and_beyond_page_witness :
    (listJobs storeA 1 none none (some "5") (some "2") =
      .ok { jobs := []
            pagination :=
              { page := .int 5, limit := .int 2, total := 1, totalPages := .int 1 } }) ∧
    ((1 + 2 - 1) / 2 < 5 →
      listJobs storeA 1 none none (some "5") (some "2") =
        .ok { jobs := []
              pagination :=
                { page := .int 5, limit := .int 2, total := 1, totalPages := .int 1 } }) :=
  ⟨(C3_totalPages_and_beyond_page storeA 1 none none "5" "2" 5 2 rfl rfl
      (by decide) (by decide)).1,
   (C3_totalPages_and_beyond_page storeA 1 none none "5" "2" 5 2 rfl rfl
      (by decide) (by decide)).2⟩

/-- C6 counterexample: a blank (empty-string) job_url in an update request
is stored as the empty string, not as NULL — only the two date fields get
the blank-to-NULL conversion. -/
theorem C6_counterexample :
    ((updateJob storeA 5 1 (some 1)
        { company_name := some "Acme", job_title := some "Engineer"
          job_url := some "" }).1.map fun r => r.job_url) = .ok (some "") ∧
    (some "" : Option String) ≠ none :=
  ⟨rfl, by decide⟩

/-- C6 (amended): a successful update is a full-record replace: every
optional field omitted from the request is stored as NULL (blank date
fields are also stored as NULL, but a blank non-date text field is stored
as the empty string), the update timestamp is set to the request time, and
the returned record is the stored replacement row. -/
theorem C6_full_replace (st : JobStore) (now userId i : Nat) (b : JobFields)
    (r : JobRecord)
    (hc : truthy b.company_name = true) (ht : truthy b.job_title = true)
    (hfind : st.rows.find? (fun q => q.id == i && q.user_id == userId) = some r) :
    updateJob st now userId (some i) b =
      (.ok (replaceRow r b now),
       ⟨st.rows.map fun q =>
          if q.id == i && q.user_id == userId then replaceRow q b now else q,
        st.nextId⟩) ∧
    (replaceRow r b now).job_url = b.job_url ∧
    (replaceRow r b now).location = b.location ∧
    (replaceRow r b now).salary_range = b.salary_range ∧
    (replaceRow r b now).application_date = dateOrNull b.application_date ∧
    (replaceRow r b now).status = b.status ∧
    (replaceRow r b now).description = b.description ∧
    (replaceRow r b now).requirements = b.requirements ∧
    (replaceRow r b now).notes = b.notes ∧
    (replaceRow r b now).contact_person = b.contact_person ∧
    (replaceRow r b now).contact_email = b.contact_email ∧
    (replaceRow r b now).follow_up_date = dateOrNull b.follow_up_date ∧
    (replaceRow r b now).updated_at = now ∧
    (replaceRow r b now).created_at = r.created_at ∧
    replaceRow r b now ∈ (updateJob st now userId (some i) b).2.rows := by
  have h1 : updateJob st now userId (some i) b =
      (.ok (replaceRow r b now),
       ⟨st.rows.map fun q =>
          if q.id == i && q.user_id == userId then replaceRow q b now else q,
        st.nextId⟩) := by
    unfold updateJob
    simp [hc, ht, hfind]
  refine ⟨h1, rfl, rfl, rfl, rfl, rfl, rfl, rfl, rfl, rfl, rfl, rfl, rfl, rfl, ?_⟩
  rw [h1]
  exact List.mem_map.mpr ⟨r, List.mem_of_find?_eq_some hfind,
    by simp [List.find?_some hfind]⟩

/-- Fixture update body supplying only the required fields. -/
def bodyW : JobFields := { company_name := some "NewCo", job_title := some "Dev" }

/-- Witness for C6 (amended): updating rowA with only the required fields
nulls every omitted optional field and bumps updated_at to 9. -/
theorem C6_full_replace_witness :
    updateJob storeA 9 1 (some 1) bodyW =
      (.ok (replaceRow rowA bodyW 9),
       ⟨storeA.rows.map fun q =>
          if q.id == 1 && q.user_id == 1 then replaceRow q bodyW 9 else q,
        storeA.nextId⟩) ∧
    (replaceRow rowA bodyW 9).job_url = bodyW.job_url ∧
    (replaceRow rowA bodyW 9).location = bodyW.location ∧
    (replaceRow rowA bodyW 9).salary_range = bodyW.salary_range ∧
    (replaceRow rowA bodyW 9).application_date = dateOrNull bodyW.application_date ∧
    (replaceRow rowA bodyW 9).status = bodyW.status ∧
    (replaceRow rowA bodyW 9).description = bodyW.description ∧
    (replaceRow rowA bodyW 9).requirements = bodyW.requirements ∧
    (replaceRow rowA bodyW 9).notes = bodyW.notes ∧
    (replaceRow rowA bodyW 9).contact_person = bodyW.contact_person ∧
    (replaceRow rowA bodyW 9).contact_email = bodyW.contact_email ∧
    (replaceRow rowA bodyW 9).follow_up_date = dateOrNull bodyW.follow_up_date ∧
    (replaceRow rowA bodyW 9).updated_at = 9 ∧
    (replaceRow rowA bodyW 9).created_at = rowA.created_at ∧
    replaceRow rowA bodyW 9 ∈ (updateJob storeA 9 1 (some 1) bodyW).2.rows :=
  C6_full_replace storeA 9 1 1 bodyW rowA (by decide) (by decide) rfl

/-- C1 counterexample: user 2 updating the record of identifier 1 owned by
user 1 with an empty body fails with status 400 (validation), not 404, so
not every cross-user attempt yields NotFoundError.  The store is still
unchanged. -/
theorem C1_counterexample :
    rowA ∈ storeA.rows ∧ rowA.id = 1 ∧ rowA.user_id = 1 ∧
    updateJob storeA 5 2 (some 1) {} =
      (.error ⟨400, "Company name and job title are required"⟩, storeA) :=
  ⟨by decide, rfl, rfl, rfl⟩

/-- C1 (amended): when every record of identifier i belongs to user A and
B ≠ A, a Get or Delete of i by B answers 404 with the store unchanged; an
Update by B whose body passes field validation also answers 404 with the
store unchanged (a body failing validation answers 400 first); and in all
cases the response B sees is identical to the response for a store in
which no record of identifier i exists at all. -/
theorem C1_cross_user_indistinguishable (st : JobStore) (now A B i : Nat)
    (b : JobFields)
    (hown : ∀ q ∈ st.rows, q.id = i → q.user_id = A) (hAB : B ≠ A)
    (hc : truthy b.company_name = true) (ht : truthy b.job_title = true) :
    getJob st B (some i) = .error ⟨404, "Job application not found"⟩ ∧
    deleteJob st B (some i) = (.error ⟨404, "Job application not found"⟩, st) ∧
    updateJob st now B (some i) b =
      (.error ⟨404, "Job application not found"⟩, st) ∧
    getJob st B (some i) = getJob (eraseId st i) B (some i) ∧
    (deleteJob st B (some i)).1 = (deleteJob (eraseId st i) B (some i)).1 ∧
    (∀ b' : JobFields, (updateJob st now B (some i) b').1 =
      (updateJob (eraseId st i) now B (some i) b').1) := by
  have hnone : st.rows.find? (fun r => r.id == i && r.user_id == B) = none := by
    rw [List.find?_eq_none]
    intro q hq
    simp only [Bool.and_eq_true, beq_iff_eq, not_and]
    intro hqi hqB
    exact hAB (hqB.symm.trans (hown q hq hqi))
  have hnoneE :
      (eraseId st i).rows.find? (fun r => r.id == i && r.user_id == B) = none := by
    rw [List.find?_eq_none]
    intro q hq
    have hq2 := (List.mem_filter.mp hq).2
    simp only [Bool.not_eq_true', beq_eq_false_iff_ne] at hq2
    simp only [Bool.and_eq_true, beq_iff_eq, not_and]
    intro hqi
    exact absurd hqi hq2
  refine ⟨?_, ?_, ?_, ?_, ?_, ?_⟩
  · simp [getJob, hnone]
  · simp [deleteJob, hnone]
  · simp [updateJob, hc, ht, hnone]
  · simp [getJob, hnone, hnoneE]
  · simp [deleteJob, hnone, hnoneE]
  · intro b'
    cases hv : truthy b'.company_name && truthy b'.job_title with
    | false => simp [updateJob, hv]
    | true => simp [updateJob, hv, hnone, hnoneE]

/-- Witness for C1 (amended): user 2 against the store holding only rowA
(identifier 1, owner 1). -/
theorem C1_cross_user_indistinguishable_witness :
    getJob storeA 2 (some 1) = .error ⟨404, "Job application not found"⟩ ∧
    deleteJob storeA 2 (some 1) = (.error ⟨404, "Job application not found"⟩, storeA) ∧
    updateJob storeA 5 2 (some 1) bodyW =
      (.error ⟨404, "Job application not found"⟩, storeA) ∧
    getJob storeA 2 (some 1) = getJob (eraseId storeA 1) 2 (some 1) ∧
    (deleteJob storeA 2 (some 1)).1 = (deleteJob (eraseId storeA 1) 2 (some 1)).1 ∧
    (∀ b' : JobFields, (updateJob storeA 5 2 (some 1) b').1 =
      (updateJob (eraseId storeA 1) 5 2 (some 1) b').1) :=
  C1_cross_user_indistinguishable storeA 5 1 2 1 bodyW (by decide) (by decide)
    (by decide) (by decide)
